import Mathlib

/-
Verification of the route-matching / fetch-state-caching core of the
Frontity-based repository (wp-source `fetch`/`init` actions and the
tiny-router `set` action).  The definitions below are a shallow embedding
of `@frontity/wp-source/src/actions.ts` and
`@frontity/tiny-router/src/actions.ts`.  Auxiliary library functions that
the actions import (`normalize`, `parse`, `concatLink`, `getMatch`,
`ServerError`, `isError`, `isSearch`) are not part of the shown sources,
so they are modelled from the specification, as marked on each one.
-/

namespace Frontity

/-- Query parameters / captured pattern parameters: an ordered association
list of string keys and string values. -/
abbrev Params := List (String × String)

/- ### Kernel-reducible string helpers (used by the spec-modelled
   `parse` / `normalize` / pattern matcher). -/

/-- Split a character list on a separator character. -/
def splitListOn (c : Char) : List Char → List (List Char)
  | [] => [[]]
  | x :: xs =>
    let r := splitListOn c xs
    if x = c then [] :: r
    else
      match r with
      | [] => [[x]]
      | y :: ys => (x :: y) :: ys

/-- Split a string on a separator character. -/
def splitStr (c : Char) (s : String) : List String :=
  (splitListOn c s.toList).map (fun l => String.mk l)

/-- Whether `pre` is a prefix of `s`. -/
def strStarts (s pre : String) : Bool :=
  pre.toList.isPrefixOf s.toList

/-- The last character of a string, if any. -/
def lastChar (s : String) : Option Char :=
  s.toList.getLast?

/-- Drop the last character of a string. -/
def dropLastChar (s : String) : String :=
  String.mk s.toList.dropLast

/-- Join a list of strings with a separator string. -/
def joinWith (sep : String) : List String → String
  | [] => ""
  | [x] => x
  | x :: y :: ys => x ++ sep ++ joinWith sep (y :: ys)

/-- The numeric value of a decimal digit character. -/
def digitVal (c : Char) : Option Nat :=
  if '0' ≤ c ∧ c ≤ '9' then some (c.toNat - '0'.toNat) else none

/-- Parse a string of decimal digits into a natural number. -/
def strToNat (s : String) : Option Nat :=
  match s.toList with
  | [] => none
  | ds =>
    ds.foldl
      (fun acc c =>
        match acc, digitVal c with
        | some n, some d => some (n * 10 + d)
        | _, _ => none)
      (some 0)

/- ### Links, routes and their parsing (modelled from the spec). -/

/-- Modelled from the spec (§3 "RouteParams", library `route-utils` is not
among the shown sources): the parts parsed from a link — the route path,
the query object, the page number taken from a `/page/N` suffix, the
reconstructed query string and the hash. -/
structure RouteParams where
  route : String
  query : Params
  page : Nat
  queryString : String
  hash : String
deriving Repr, DecidableEq

/-- The non-empty `/`-separated segments of a path. -/
def segments (s : String) : List String :=
  (splitStr '/' s).filter (fun x => x ≠ "")

/-- Rebuild a route string (leading and trailing slash) from its segments. -/
def routeOfSegs (segs : List String) : String :=
  match segs with
  | [] => "/"
  | _ => "/" ++ joinWith "/" segs ++ "/"

/-- Modelled from the spec: extract a trailing `/page/N` pagination suffix
from the path segments; the page defaults to 1. -/
def parsePage (segs : List String) : List String × Nat :=
  match segs.reverse with
  | n :: p :: rest =>
    if p = "page" then
      match strToNat n with
      | some k => (rest.reverse, k)
      | none => (segs, 1)
    else (segs, 1)
  | _ => (segs, 1)

/-- Parse a raw query string (without the `?`) into key/value pairs. -/
def parseQuery (raw : String) : Params :=
  ((splitStr '&' raw).filter (fun x => x ≠ "")).map fun kv =>
    match splitStr '=' kv with
    | [] => ("", "")
    | k :: rest => (k, joinWith "=" rest)

/-- Modelled from the spec (§3 "RouteParams"; library `route-utils` is not
among the shown sources): parse a link into route path (without the
pagination suffix), query object, page number and hash. -/
def parse (link : String) : RouteParams :=
  let parts := splitStr '#' link
  let beforeHash := parts.headD ""
  let hash := if parts.length ≤ 1 then "" else "#" ++ joinWith "#" parts.tail
  let qparts := splitStr '?' beforeHash
  let path := qparts.headD ""
  let rawQuery := if qparts.length ≤ 1 then "" else joinWith "?" qparts.tail
  let query := parseQuery rawQuery
  let rp := parsePage (segments path)
  { route := routeOfSegs rp.1
    query := query
    page := rp.2
    queryString :=
      if query.isEmpty then ""
      else "?" ++ joinWith "&" (query.map (fun p => p.1 ++ "=" ++ p.2))
    hash := hash }

/-- Rebuild the canonical link string from parsed route parameters. -/
def stringifyRoute (r : RouteParams) : String :=
  (if r.page ≤ 1 then r.route else r.route ++ "page/" ++ toString r.page ++ "/")
    ++ r.queryString ++ r.hash

/-- Modelled from the spec (§3 "Link"; library `route-utils` is not among
the shown sources): normalize a link into the canonical
path + query + hash form, always beginning with `/`. -/
def normalize (link : String) : String :=
  stringifyRoute (parse link)

/-- Modelled from the spec (library `route-utils` is not among the shown
sources): join path fragments into a single path with a leading and a
trailing slash; the empty join is `/`. -/
def concatLink (links : List String) : String :=
  routeOfSegs (links.map segments).flatten

/- ### Pattern matching and `getMatch` (modelled from the spec §4.1/§3,
   library `get-match` is not among the shown sources). -/

/-- A pattern entry of the handler or redirection registry:
`{ name, priority, pattern, func }` (spec §3 "Pattern Entry"). -/
structure PEntry (F : Type) where
  name : String
  priority : Nat
  pattern : String
  func : F

/-- Raw-regular-expression matching for `RegExp:`-prefixed patterns is host
functionality external to this core; it is taken as a parameter. -/
abbrev Rx := String → String → Option Params

/-- Fuelled worker for `matchSegs`; every recursive call shrinks the total
length of the two segment lists, so `matchSegs` hands it enough fuel. -/
def matchSegsF : Nat → List String → List String → Option Params
  | 0, _, _ => none
  | Nat.succ fuel, pat, ls =>
    match pat with
    | [] => match ls with | [] => some ([] : Params) | _ :: _ => none
    | p :: ps =>
      if p = "(.*)" ∨ p = "(.*)?" then
        match matchSegsF fuel ps ls with
        | some r => some r
        | none =>
          match ls with
          | [] => none
          | _ :: xs => matchSegsF fuel (p :: ps) xs
      else if strStarts p ":" then
        let base := String.mk (p.toList.drop 1)
        if lastChar base = some '+' then
          if ps.isEmpty && !ls.isEmpty then
            some [(dropLastChar base, joinWith "/" ls)]
          else none
        else if lastChar base = some '*' then
          if ps.isEmpty then some [(dropLastChar base, joinWith "/" ls)] else none
        else
          match ls with
          | [] => none
          | x :: xs => (matchSegsF fuel ps xs).map (fun r => (base, x) :: r)
      else
        match ls with
        | [] => none
        | x :: xs => if p = x then matchSegsF fuel ps xs else none

/-- Modelled from the spec (§4.1): structural match of pattern segments
against link segments.  Literal segments must be equal, `:name` captures
one component, `:name+` captures the one-or-more remaining components
joined, `:name*` captures the zero-or-more remaining components joined,
and a `(.*)`/`(.*)?` group matches any run of components. -/
def matchSegs (pat ls : List String) : Option Params :=
  matchSegsF (pat.length + ls.length + 1) pat ls

/-- Modelled from the spec (§4.1): match one pattern against a link.
`RegExp:`-prefixed patterns are matched against the raw link by the
external regular-expression engine `rx`; other patterns are matched
structurally, segment by segment. -/
def matchPattern (rx : Rx) (pat : String) (link : String) : Option Params :=
  if strStarts pat "RegExp:" then rx (String.mk (pat.toList.drop 7)) link
  else matchSegs (segments pat) (segments link)

/-- Pick the matching entry with the highest priority; among entries of
equal priority the earliest-registered one wins. -/
def pickBest {F : Type} : List (PEntry F × Params) → Option (PEntry F × Params)
  | [] => none
  | c :: cs =>
    match pickBest cs with
    | none => some c
    | some b => if c.1.priority < b.1.priority then some b else some c

/-- Modelled from the spec (§3 "Pattern Entry", §4.1; library `get-match`
is not among the shown sources): the first matching entry in descending
priority order, together with its captured parameters. -/
def getMatch {F : Type} (rx : Rx) (link : String) (l : List (PEntry F)) :
    Option (PEntry F × Params) :=
  pickBest (l.filterMap (fun e => (matchPattern rx e.pattern link).map (fun ps => (e, ps))))

/- ### The cache data model (from `actions.ts`, with the absent JS object
   keys of a data entry modelled as the default field values). -/

/-- A cache data entry (spec §3 "Data Entry", `actions.ts`).  Boolean keys
that a JS data object may simply lack are modelled as fields defaulting to
`false`; the dynamic `is{status}` key family is modelled by `statusFlags`
(membership of `s` means the key `is{s}` is present and true), and
arbitrary further fields written by handlers are modelled by the `extra`
association list. -/
structure DataEntry where
  isFetching : Bool
  isReady : Bool
  isError : Bool := false
  isHome : Bool := false
  isSearch : Bool := false
  errorStatus : Option Nat := none
  errorStatusText : String := ""
  statusFlags : List Nat := []
  route : String
  link : String
  query : Params
  page : Nat
  extra : List (String × String) := []
deriving Repr, DecidableEq

/-- The cache `state.source.data`: an association list keyed by link. -/
abbrev Cache := List (String × DataEntry)

/-- Look a link up in the cache. -/
def cacheGet : Cache → String → Option DataEntry
  | [], _ => none
  | (k', v) :: rest, k => if k' = k then some v else cacheGet rest k

/-- Write a link's entry in the cache (replace the first binding, or append). -/
def cacheSet : Cache → String → DataEntry → Cache
  | [], k, v => [(k, v)]
  | (k', v') :: rest, k, v =>
    if k' = k then (k, v) :: rest else (k', v') :: cacheSet rest k v

/- ### Exceptions, handlers and the fetch action (from
   `@frontity/wp-source/src/actions.ts`). -/

/-- An exception raised during handler execution.  `serverError` models the
`ServerError` class of `@frontity/source` (modelled from the spec §7: a
classified HTTP-style failure carrying a numeric status and a status
text); `other` models any other thrown value. -/
inductive Exn where
  | serverError (status : Nat) (statusText : String) (message : String)
  | other (message : String)
deriving Repr, DecidableEq

/-- The argument object passed to a handler by `fetch` (`actions.ts`
lines 79-88): the link, the legacy `route` name for the link, the captured
pattern parameters and the force flag. -/
structure HandlerArgs where
  link : String
  route : String
  params : Params
  force : Bool
deriving Repr, DecidableEq

/-- A handler's observable effect: given its argument object and the
current cache it either returns the updated cache or throws, carrying the
cache as mutated up to the point of the throw (spec §6: a handler
populates the cache entry for its link as a side effect). -/
abbrev HandlerFunc := HandlerArgs → Cache → Except (Exn × Cache) Cache

/-- The libraries consulted by `fetch`: the handler registry, the
redirection registry and the external regular-expression engine. -/
structure Libs where
  rx : Rx
  handlers : List (PEntry HandlerFunc)
  redirections : List (PEntry (Params → String))

/-- The options object of `fetch`. -/
structure FetchOptions where
  force : Bool := false
deriving Repr, DecidableEq

/-- A record of one handler invocation: the handler's name, the argument
object it received and the cache state it was invoked on. -/
structure CallLog where
  hname : String
  args : HandlerArgs
  cache : Cache
deriving Repr, DecidableEq

/-- The outcome of a `fetch` call: either a normal return or a re-thrown
exception, in both cases with the final cache and the list of handler
invocations that occurred during the call. -/
inductive FetchResult where
  | ok (cache : Cache) (calls : List CallLog)
  | thrown (e : Exn) (cache : Cache) (calls : List CallLog)
deriving Repr, DecidableEq

/-- The handler invocations recorded in a fetch outcome. -/
def FetchResult.callsOf : FetchResult → List CallLog
  | .ok _ cs => cs
  | .thrown _ _ cs => cs

/-- The final cache of a fetch outcome. -/
def FetchResult.cacheOf : FetchResult → Cache
  | .ok c _ => c
  | .thrown _ c _ => c

/-- The fresh data entry written when a fetch starts (`actions.ts`
lines 36-43): fetching, not ready, with the parsed route parameters. -/
def dataInit (lp : RouteParams) (link : String) : DataEntry :=
  { isFetching := true
    isReady := false
    route := lp.route
    link := link
    query := lp.query
    page := lp.page }

/-- The error record written by the `catch` block of `fetch` (`actions.ts`
lines 110-122): a fresh entry carrying the error flags, the status
information and the parsed route parameters. -/
def errorData (status : Nat) (statusText : String) (lp : RouteParams)
    (link : String) : DataEntry :=
  { isError := true
    isReady := true
    isFetching := false
    statusFlags := [status]
    errorStatus := some status
    errorStatusText := statusText
    route := lp.route
    link := link
    query := lp.query
    page := lp.page }

/-- Apply at most one matching redirection to a route (`actions.ts`
lines 65-66): if some redirection matches, the route becomes whatever its
rewrite function returns. -/
def applyRedirections (libs : Libs) (route : String) : String :=
  match getMatch libs.rx route libs.redirections with
  | some r => r.1.func r.2
  | none => route

/-- The handler phase of `fetch` (`actions.ts` lines 69-126): match the
(possibly redirected) route plus query string against the handler
registry; on no match record a 404 error entry; otherwise run the handler
and either settle the entry as ready (adding `isHome` when the route is
the homepage root, the pattern is not a raw regex and the entry is not a
search), record a `ServerError` as an error entry, or re-throw any other
exception. -/
def fetchWithRoute (libs : Libs) (subdirectory : String) (cache : Cache)
    (link : String) (lp : RouteParams) (force : Bool) (route : String) :
    FetchResult :=
  match getMatch libs.rx (route ++ lp.queryString) libs.handlers with
  | none =>
    FetchResult.ok (cacheSet cache link (errorData 404 "Not Found" lp link)) []
  | some m =>
    let args : HandlerArgs := { link := link, route := link, params := m.2, force := force }
    let log : CallLog := { hname := m.1.name, args := args, cache := cache }
    match m.1.func args cache with
    | Except.error (Exn.serverError s txt _, cache') =>
      FetchResult.ok (cacheSet cache' link (errorData s txt lp link)) [log]
    | Except.error (Exn.other msg, cache') =>
      FetchResult.thrown (Exn.other msg) cache' [log]
    | Except.ok cache' =>
      match cacheGet cache' link with
      | none => FetchResult.thrown (Exn.other "TypeError") cache' [log]
      | some d =>
        let home : Bool :=
          !(strStarts m.1.pattern "RegExp:") && !d.isSearch
            && (d.route == normalize (if subdirectory = "" then "/" else subdirectory))
        FetchResult.ok
          (cacheSet cache' link
            { d with
              isHome := if home then true else d.isHome
              isFetching := false
              isReady := true })
          [log]

/-- The body of the `try` block of `fetch` (`actions.ts` lines 62-69):
apply the redirections to the parsed route and continue with the handler
phase. -/
def fetchRest (libs : Libs) (subdirectory : String) (cache : Cache)
    (link : String) (lp : RouteParams) (force : Bool) : FetchResult :=
  fetchWithRoute libs subdirectory cache link lp force
    (applyRedirections libs lp.route)

/-- The `fetch` action of `@frontity/wp-source/src/actions.ts`.  The
`subdirectory` argument is `state.source.subdirectory` (the empty string
standing for an unset value), `cache` is `state.source.data`, `routeArg`
and `options` are the call's parameters. -/
def fetch (libs : Libs) (subdirectory : String) (cache : Cache)
    (routeArg : String) (options : Option FetchOptions) : FetchResult :=
  let link := normalize routeArg
  let lp := parse routeArg
  let force := match options with | some o => o.force | none => false
  match cacheGet cache link with
  | none =>
    fetchRest libs subdirectory (cacheSet cache link (dataInit lp link)) link lp force
  | some d =>
    if force && d.isError then
      fetchRest libs subdirectory (cacheSet cache link (dataInit lp link)) link lp force
    else
      let d1 := { d with route := lp.route, link := link, query := lp.query, page := lp.page }
      if !force && (d1.isReady || d1.isFetching) then
        FetchResult.ok (cacheSet cache link d1) []
      else
        fetchRest libs subdirectory (cacheSet cache link { d1 with isFetching := true })
          link lp force

/- ### `init` — handler and redirection registration (from
   `@frontity/wp-source/src/actions.ts` lines 148-296). -/

/-- A declared custom post type: `{ type, endpoint, archive? }` (spec §6). -/
structure PostTypeConf where
  type : String
  endpoint : String
  archive : Option String := none
deriving Repr, DecidableEq

/-- A declared custom taxonomy:
`{ taxonomy, endpoint, postTypeEndpoint, params }` (spec §6). -/
structure TaxonomyConf where
  taxonomy : String
  endpoint : String
  postTypeEndpoint : String := ""
  params : Params := []
deriving Repr, DecidableEq

/-- The handler entries `init` registers for one custom post type
(`actions.ts` lines 155-178): the single-item entry (priority 10), the
query-permalink entry (priority 9, `RegExp:` pattern) and, only when an
archive is declared, the archive entry (priority 10).  The handler
constructors `mkSingle`, `mkQuery` and `mkArchive` stand for the imported
`postTypeHandler`, `postTypeWithQueryHandler` and `postTypeArchiveHandler`
factories, which are external to the shown sources. -/
def postTypeEntries (mkSingle : String → HandlerFunc)
    (mkQuery : String → String → HandlerFunc)
    (mkArchive : String → String → HandlerFunc)
    (pt : PostTypeConf) : List (PEntry HandlerFunc) :=
  [{ name := pt.type
     priority := 10
     pattern := concatLink [pt.type, "/:slug"]
     func := mkSingle pt.endpoint },
   { name := pt.type ++ " with query permalink"
     priority := 9
     pattern := "RegExp:(\\?|&)p=\\d+&post_type=" ++ pt.type
     func := mkQuery pt.type pt.endpoint }]
  ++ match pt.archive with
     | some a =>
       [{ name := pt.type ++ " archive"
          priority := 10
          pattern := concatLink [a]
          func := mkArchive pt.type pt.endpoint }]
     | none => []

/-- The handler entry `init` registers for one custom taxonomy
(`actions.ts` lines 181-195). -/
def taxonomyEntry (mkTaxonomy : TaxonomyConf → HandlerFunc)
    (t : TaxonomyConf) : PEntry HandlerFunc :=
  { name := t.taxonomy
    priority := 10
    pattern := concatLink [t.taxonomy, "/(.*)?/:slug"]
    func := mkTaxonomy t }

/-- The handler registry built by `init` (`actions.ts` lines 148-195): the
built-in platform patterns followed by the entries for the declared custom
post types and taxonomies, in declaration order. -/
def initHandlers (builtIn : List (PEntry HandlerFunc))
    (mkSingle : String → HandlerFunc)
    (mkQuery : String → String → HandlerFunc)
    (mkArchive : String → String → HandlerFunc)
    (mkTaxonomy : TaxonomyConf → HandlerFunc)
    (postTypes : List PostTypeConf) (taxonomies : List TaxonomyConf) :
    List (PEntry HandlerFunc) :=
  builtIn
    ++ (postTypes.map (postTypeEntries mkSingle mkQuery mkArchive)).flatten
    ++ taxonomies.map (taxonomyEntry mkTaxonomy)

/-- The base-path configuration read by `init` (`actions.ts`
lines 197-204); the empty string models an unset (falsy) value. -/
structure BaseConf where
  subdirectory : String := ""
  homepage : String := ""
  postsPage : String := ""
  categoryBase : String := ""
  tagBase : String := ""
  authorBase : String := ""
deriving Repr, DecidableEq

/-- Look a captured parameter up, defaulting to the empty string. -/
def lookupParam (ps : Params) (k : String) : String :=
  match ps.find? (fun p => p.1 == k) with
  | some p => p.2
  | none => ""

/-- The redirection registry built by `init` (`actions.ts` lines 206-296):
for each configured base-path override an "add" rule and, where the code
registers one, a "reverse" rule whose rewrite function returns the empty
string. -/
def initRedirections (c : BaseConf) : List (PEntry (Params → String)) :=
  (if c.homepage ≠ "" then
    [{ name := "homepage", priority := 10, pattern := concatLink [c.subdirectory]
       func := fun _ => concatLink [c.homepage] }]
   else [])
  ++ (if c.postsPage ≠ "" then
    [{ name := "posts page", priority := 10
       pattern := concatLink [c.subdirectory, c.postsPage]
       func := fun _ => "/" }]
   else [])
  ++ (if c.categoryBase ≠ "" then
    [{ name := "category base", priority := 10
       pattern := concatLink [c.subdirectory, c.categoryBase, "/:subpath+"]
       func := fun ps => "/category/" ++ lookupParam ps "subpath" ++ "/" },
     { name := "category base (reverse)", priority := 10
       pattern := concatLink [c.subdirectory, "/category/(.*)/"]
       func := fun _ => "" }]
   else [])
  ++ (if c.tagBase ≠ "" then
    [{ name := "tag base", priority := 10
       pattern := concatLink [c.subdirectory, c.tagBase, "/:subpath+"]
       func := fun ps => "/tag/" ++ lookupParam ps "subpath" ++ "/" },
     { name := "tag base (reverse)", priority := 10
       pattern := concatLink [c.subdirectory, "/tag/(.*)/"]
       func := fun _ => "" }]
   else [])
  ++ (if c.authorBase ≠ "" then
    [{ name := "author base", priority := 10
       pattern := concatLink [c.subdirectory, c.authorBase, "/:subpath+"]
       func := fun ps => "/author/" ++ lookupParam ps "subpath" ++ "/" },
     { name := "author base (reverse)", priority := 10
       pattern := concatLink [c.subdirectory, "/author/(.*)/"]
       func := fun _ => "" }]
   else [])
  ++ (if c.subdirectory ≠ "" then
    [{ name := "subdirectory", priority := 10
       pattern := concatLink [c.subdirectory, "/:subpath*"]
       func := fun ps =>
         let subpath := lookupParam ps "subpath"
         "/" ++ subpath ++ (if subpath = "" then "" else "/") },
     { name := "subdirectory (reverse)", priority := 10
       pattern := "/(.*)"
       func := fun _ => "" }]
   else [])

/- ### The tiny-router `set` action (from
   `@frontity/tiny-router/src/actions.ts` lines 38-66). -/

/-- The router state: the current link, the history state payload and the
auto-fetch flag (spec §3 "Router State"). -/
structure RouterSt where
  link : String
  state : Params
  autoFetch : Bool
deriving Repr, DecidableEq

/-- The `method` option of `set`; `pop` is the internal mode used for
back/forward navigation. -/
inductive HistoryMethod where
  | push
  | replace
  | pop
deriving Repr, DecidableEq

/-- The options object of `set`: an optional method and an optional history
state payload. -/
structure SetOptions where
  method : Option HistoryMethod := none
  state : Option Params := none
deriving Repr, DecidableEq

/-- A host navigation effect issued by `set`: a pushed or replaced history
entry with its state payload and URL. -/
inductive HistoryOp where
  | push (st : Params) (url : String)
  | replace (st : Params) (url : String)
deriving Repr, DecidableEq

/-- The outcome of a `set` call: the updated router state, the history
operations issued and the links whose fetch was triggered. -/
structure SetResult where
  router : RouterSt
  historyOps : List HistoryOp
  fetched : List String
deriving Repr, DecidableEq

/-- The link as normalized by `set` (`actions.ts` lines 44-45): the source
package's `normalize` when a source package is installed, the raw link
otherwise. -/
def routerSetLink (norm? : Option (String → String)) (link0 : String) : String :=
  match norm? with
  | some n => n link0
  | none => link0

/-- The history state payload used by `set` (`actions.ts` line 48):
the `state` option, defaulted to the empty object. -/
def routerSetSt (options : SetOptions) : Params :=
  match options.state with
  | some s => s
  | none => []

/-- The `set` action of `@frontity/tiny-router/src/actions.ts`.  The
`platform` argument is `state.frontity.platform` (the string `"client"` or
`"server"`). -/
def routerSet (norm? : Option (String → String)) (platform : String)
    (router : RouterSt) (link0 : String) (options : SetOptions) : SetResult :=
  let link := routerSetLink norm? link0
  let st := routerSetSt options
  if options.method = some HistoryMethod.push
      ∨ (options.method = none ∧ platform = "client") then
    { router := { router with link := link, state := st }
      historyOps := [HistoryOp.push st link]
      fetched := if router.autoFetch then [link] else [] }
  else if options.method = some HistoryMethod.replace then
    { router := { router with link := link, state := st }
      historyOps := [HistoryOp.replace st link]
      fetched := if router.autoFetch then [link] else [] }
  else
    { router := { router with link := link, state := st }
      historyOps := []
      fetched := [] }

/- ### Concrete instances used to evaluate the theorems on explicit
   inputs. -/

/-- A regular-expression engine that matches nothing (no `RegExp:` pattern
takes part in the concrete scenarios below). -/
def rxNone : Rx := fun _ _ => none

/-- A handler that succeeds and leaves the cache unchanged. -/
def handlerOk : HandlerFunc := fun _ c => Except.ok c

/-- A handler that throws a `ServerError` with status 500. -/
def handlerErr500 : HandlerFunc :=
  fun _ c => Except.error (Exn.serverError 500 "Internal Server Error" "failed", c)

/-- A handler that throws a value that is not a `ServerError`. -/
def handlerBoom : HandlerFunc := fun _ c => Except.error (Exn.other "boom", c)

/-- A handler entry for the literal route `/old/`. -/
def hOld : PEntry HandlerFunc :=
  { name := "old", priority := 10, pattern := "/old/", func := handlerOk }

/-- A handler entry for `/old/` whose handler throws a 500 `ServerError`. -/
def hOld500 : PEntry HandlerFunc :=
  { name := "old500", priority := 10, pattern := "/old/", func := handlerErr500 }

/-- A handler entry for `/old/` whose handler throws a non-`ServerError`. -/
def hOldBoom : PEntry HandlerFunc :=
  { name := "oldboom", priority := 10, pattern := "/old/", func := handlerBoom }

/-- A redirection whose rewrite function returns the empty string for the
route `/old/` (the shape of the "(reverse)" rules registered by `init`). -/
def rEmpty : PEntry (Params → String) :=
  { name := "kill", priority := 10, pattern := "/old/", func := fun _ => "" }

/-- Libraries with one matching handler and no redirections. -/
def libsPlain : Libs := { rx := rxNone, handlers := [hOld], redirections := [] }

/-- Libraries where a redirection rewrites `/old/` to the empty string
while a handler for `/old/` itself is registered. -/
def libsC3 : Libs := { rx := rxNone, handlers := [hOld], redirections := [rEmpty] }

/-- Libraries with no handlers at all. -/
def libsNoH : Libs := { rx := rxNone, handlers := [], redirections := [] }

/-- Libraries whose only handler throws a 500 `ServerError`. -/
def libs500 : Libs := { rx := rxNone, handlers := [hOld500], redirections := [] }

/-- Libraries whose only handler throws a non-`ServerError`. -/
def libsBoom : Libs := { rx := rxNone, handlers := [hOldBoom], redirections := [] }

/-- A settled, ready, non-error cache entry for `/old/`. -/
def entryReady : DataEntry :=
  { dataInit (parse "/old/") "/old/" with isFetching := false, isReady := true }

/-- A settled 404 error cache entry for `/old/`. -/
def entryErr : DataEntry := errorData 404 "Not Found" (parse "/old/") "/old/"

/-- The registration-relevant signature of a pattern entry: its name,
priority and pattern. -/
def entrySig {F : Type} (e : PEntry F) : String × Nat × String :=
  (e.name, e.priority, e.pattern)

/- ### Helper lemmas. -/

/-- Rewriting a cache binding with the value it already holds leaves the
cache unchanged. -/
theorem cacheSet_get_self (c : Cache) (k : String) (v : DataEntry)
    (h : cacheGet c k = some v) : cacheSet c k v = c := by
  induction c with
  | nil => simp [cacheGet] at h
  | cons head tail ih =>
    obtain ⟨k', v'⟩ := head
    by_cases hk : k' = k
    · subst hk
      simp [cacheGet] at h
      simp [cacheSet, h]
    · simp [cacheGet, hk] at h
      simp [cacheSet, hk, ih h]

/-- Looking up a link right after writing it yields the written entry. -/
theorem cacheGet_set (c : Cache) (k : String) (v : DataEntry) :
    cacheGet (cacheSet c k v) k = some v := by
  induction c with
  | nil => simp [cacheGet, cacheSet]
  | cons head tail ih =>
    obtain ⟨k', v'⟩ := head
    by_cases hk : k' = k
    · simp [cacheSet, hk, cacheGet]
    · simp [cacheSet, hk, cacheGet, ih]

/-- A `fetch` of a link absent from the cache initializes the entry and
proceeds to the redirect-and-match phase. -/
theorem fetch_absent (libs : Libs) (subdirectory : String) (cache : Cache)
    (route : String) (h : cacheGet cache (normalize route) = none) :
    fetch libs subdirectory cache route none =
      fetchRest libs subdirectory
        (cacheSet cache (normalize route) (dataInit (parse route) (normalize route)))
        (normalize route) (parse route) false := by
  simp only [fetch, h]

/-- When no handler matches, the handler phase records a 404 error entry
and invokes no handler. -/
theorem fetchWithRoute_noMatch (libs : Libs) (subdirectory : String)
    (cache : Cache) (link : String) (lp : RouteParams) (force : Bool)
    (r : String)
    (h : getMatch libs.rx (r ++ lp.queryString) libs.handlers = none) :
    fetchWithRoute libs subdirectory cache link lp force r =
      FetchResult.ok (cacheSet cache link (errorData 404 "Not Found" lp link)) [] := by
  simp only [fetchWithRoute, h]

/-- When the matched handler throws a `ServerError`, the handler phase
records the corresponding error entry. -/
theorem fetchWithRoute_serverError (libs : Libs) (subdirectory : String)
    (cache : Cache) (link : String) (lp : RouteParams) (force : Bool)
    (r : String) (m : PEntry HandlerFunc × Params) (s : Nat)
    (txt msg : String) (c' : Cache)
    (hm : getMatch libs.rx (r ++ lp.queryString) libs.handlers = some m)
    (hrun : m.1.func { link := link, route := link, params := m.2, force := force } cache
      = Except.error (Exn.serverError s txt msg, c')) :
    fetchWithRoute libs subdirectory cache link lp force r =
      FetchResult.ok (cacheSet c' link (errorData s txt lp link))
        [{ hname := m.1.name
           args := { link := link, route := link, params := m.2, force := force }
           cache := cache }] := by
  simp only [fetchWithRoute, hm, hrun]

/-- When the matched handler throws a non-`ServerError`, the handler phase
re-throws it. -/
theorem fetchWithRoute_rethrow (libs : Libs) (subdirectory : String)
    (cache : Cache) (link : String) (lp : RouteParams) (force : Bool)
    (r : String) (m : PEntry HandlerFunc × Params) (msg : String) (c' : Cache)
    (hm : getMatch libs.rx (r ++ lp.queryString) libs.handlers = some m)
    (hrun : m.1.func { link := link, route := link, params := m.2, force := force } cache
      = Except.error (Exn.other msg, c')) :
    fetchWithRoute libs subdirectory cache link lp force r =
      FetchResult.thrown (Exn.other msg) c'
        [{ hname := m.1.name
           args := { link := link, route := link, params := m.2, force := force }
           cache := cache }] := by
  simp only [fetchWithRoute, hm, hrun]

/-- Whenever some handler matches, the handler phase invokes exactly that
handler, once, on the cache it was entered with. -/
theorem fetchWithRoute_calls (libs : Libs) (subdirectory : String)
    (cache : Cache) (link : String) (lp : RouteParams) (force : Bool)
    (r : String) (m : PEntry HandlerFunc × Params)
    (hm : getMatch libs.rx (r ++ lp.queryString) libs.handlers = some m) :
    (fetchWithRoute libs subdirectory cache link lp force r).callsOf =
      [{ hname := m.1.name
         args := { link := link, route := link, params := m.2, force := force }
         cache := cache }] := by
  simp only [fetchWithRoute, hm]
  cases hres : m.1.func { link := link, route := link, params := m.2, force := force } cache with
  | error p =>
    obtain ⟨e, c'⟩ := p
    cases e <;> simp [hres, FetchResult.callsOf]
  | ok c' =>
    cases hcg : cacheGet c' link <;> simp [hres, hcg, FetchResult.callsOf]

/-- When the matched handler succeeds, the handler phase settles the entry
in place by merging the ready flags (and possibly `isHome`). -/
theorem fetchWithRoute_success (libs : Libs) (subdirectory : String)
    (cache : Cache) (link : String) (lp : RouteParams) (force : Bool)
    (r : String) (m : PEntry HandlerFunc × Params) (c' : Cache) (d : DataEntry)
    (hm : getMatch libs.rx (r ++ lp.queryString) libs.handlers = some m)
    (hrun : m.1.func { link := link, route := link, params := m.2, force := force } cache
      = Except.ok c')
    (hd : cacheGet c' link = some d) :
    fetchWithRoute libs subdirectory cache link lp force r =
      FetchResult.ok
        (cacheSet c' link
          { d with
            isHome :=
              if !(strStarts m.1.pattern "RegExp:") && !d.isSearch
                  && (d.route == normalize (if subdirectory = "" then "/" else subdirectory))
                then true else d.isHome
            isFetching := false
            isReady := true })
        [{ hname := m.1.name
           args := { link := link, route := link, params := m.2, force := force }
           cache := cache }] := by
  simp only [fetchWithRoute, hm, hrun, hd]

/- ### The claims. -/

/-- Claim C1: for every link, a `fetch` of that link without the force
option, issued while the cache entry is fetching or after it reached a
ready non-error state, returns without invoking any handler and without
mutating the cache entry (the entry's route parameters already hold the
values parsed from the link, as every entry written by `fetch` for that
link does, so the reassignment on entry is value-preserving). -/
theorem c1_fetch_dedup_noop (libs : Libs) (subdirectory : String)
    (cache : Cache) (route : String) (d : DataEntry)
    (hget : cacheGet cache (normalize route) = some d)
    (hstate : d.isFetching = true ∨ (d.isReady = true ∧ d.isError = false))
    (hroute : d.route = (parse route).route)
    (hlink : d.link = normalize route)
    (hquery : d.query = (parse route).query)
    (hpage : d.page = (parse route).page) :
    fetch libs subdirectory cache route none = FetchResult.ok cache [] := by
  have hd1 :
      ({ d with
          route := (parse route).route
          link := normalize route
          query := (parse route).query
          page := (parse route).page } : DataEntry) = d := by
    rw [← hroute, ← hlink, ← hquery, ← hpage]
  have hready : (d.isReady || d.isFetching) = true := by
    rcases hstate with hf | ⟨hr, _⟩
    · simp [hf]
    · simp [hr]
  simp only [fetch, hget, Bool.false_and, Bool.not_false, if_neg Bool.false_ne_true,
    Bool.true_and, hd1, hready, if_pos rfl, cacheSet_get_self cache (normalize route) d hget]
  simp

/-- Witness for C1 at a concrete input: a ready, non-error entry for
`/old/` makes a second non-forced fetch a strict no-op. -/
theorem c1_witness :
    fetch libsPlain "" [("/old/", entryReady)] "/old/" none =
      FetchResult.ok [("/old/", entryReady)] [] :=
  c1_fetch_dedup_noop libsPlain "" [("/old/", entryReady)] "/old/" entryReady
    (by decide) (Or.inr ⟨rfl, rfl⟩) rfl rfl rfl rfl

/-- Claim C2: for every link whose cache entry is an error entry, a
forced `fetch` reinitializes the entry to the fetching state (the handler
is invoked on a cache holding the fresh `dataInit` entry, which is
fetching and not ready) and invokes the matched handler again, even
though the prior entry had `isReady = true`. -/
theorem c2_force_error_refetch (libs : Libs) (subdirectory : String)
    (cache : Cache) (route : String) (d : DataEntry)
    (m : PEntry HandlerFunc × Params)
    (hget : cacheGet cache (normalize route) = some d)
    (herr : d.isError = true)
    (_hready : d.isReady = true)
    (hm : getMatch libs.rx
        (applyRedirections libs (parse route).route ++ (parse route).queryString)
        libs.handlers = some m) :
    (fetch libs subdirectory cache route (some { force := true })).callsOf =
      [{ hname := m.1.name
         args := { link := normalize route, route := normalize route
                   params := m.2, force := true }
         cache := cacheSet cache (normalize route)
           (dataInit (parse route) (normalize route)) }]
    ∧ (dataInit (parse route) (normalize route)).isFetching = true
    ∧ (dataInit (parse route) (normalize route)).isReady = false
    ∧ cacheGet
        (cacheSet cache (normalize route) (dataInit (parse route) (normalize route)))
        (normalize route) = some (dataInit (parse route) (normalize route)) := by
  have hstep : fetch libs subdirectory cache route (some { force := true }) =
      fetchRest libs subdirectory
        (cacheSet cache (normalize route) (dataInit (parse route) (normalize route)))
        (normalize route) (parse route) true := by
    simp only [fetch, hget, herr, Bool.and_self, if_pos rfl]
    simp
  refine ⟨?_, rfl, rfl, cacheGet_set cache (normalize route) (dataInit (parse route) (normalize route))⟩
  rw [hstep]
  simp only [fetchRest]
  exact fetchWithRoute_calls libs subdirectory _ (normalize route) (parse route) true _ m hm

/-- Witness for C2 at a concrete input: a forced fetch of `/old/` over a
404 error entry reinitializes the entry and invokes the handler again. -/
theorem c2_witness :
    (fetch libsPlain "" [("/old/", entryErr)] "/old/" (some { force := true })).callsOf =
      [{ hname := "old"
         args := { link := "/old/", route := "/old/", params := [], force := true }
         cache := cacheSet [("/old/", entryErr)] "/old/"
           (dataInit (parse "/old/") "/old/") }]
    ∧ (dataInit (parse "/old/") "/old/").isFetching = true
    ∧ (dataInit (parse "/old/") "/old/").isReady = false
    ∧ cacheGet
        (cacheSet [("/old/", entryErr)] "/old/" (dataInit (parse "/old/") "/old/"))
        "/old/" = some (dataInit (parse "/old/") "/old/") :=
  c2_force_error_refetch libsPlain "" [("/old/", entryErr)] "/old/" entryErr
    (hOld, []) (by decide) rfl rfl (by rfl)

/-- Counterexample to claim C3 at a concrete input: a redirection rewrites
`/old/` to the empty string while a handler is registered for `/old/`
itself.  If an empty rewrite result were treated as "do not redirect", the
fetch would match and invoke that handler; instead the fetch matches
handlers against the empty string, invokes no handler and records a 404
error entry. -/
theorem c3_counterexample :
    (fetch libsC3 "" [] "/old/" none).callsOf = []
    ∧ cacheGet (fetch libsC3 "" [] "/old/" none).cacheOf "/old/"
        = some (errorData 404 "Not Found" (parse "/old/") "/old/")
    ∧ (getMatch libsC3.rx ((parse "/old/").route ++ (parse "/old/").queryString)
        libsC3.handlers).isSome = true
    ∧ applyRedirections libsC3 (parse "/old/").route = "" :=
  ⟨by decide, by decide, by rfl, by rfl⟩

/-- Claim C3 (amended): when the first matching redirection rule's rewrite
function returns the empty string, `fetch` proceeds with the empty string
as the route for handler matching — the original route is not restored,
so typically no handler matches and a 404 error entry is recorded. -/
theorem c3_empty_redirect (libs : Libs) (subdirectory : String) (cache : Cache)
    (link : String) (lp : RouteParams) (force : Bool)
    (r : PEntry (Params → String) × Params)
    (hr : getMatch libs.rx lp.route libs.redirections = some r)
    (hempty : r.1.func r.2 = "") :
    fetchRest libs subdirectory cache link lp force =
      fetchWithRoute libs subdirectory cache link lp force "" := by
  simp only [fetchRest, applyRedirections, hr, hempty]

/-- Witness for the amended C3 at a concrete input. -/
theorem c3_witness :
    fetchRest libsC3 "" [] "/old/" (parse "/old/") false =
      fetchWithRoute libsC3 "" [] "/old/" (parse "/old/") false "" :=
  c3_empty_redirect libsC3 "" [] "/old/" (parse "/old/") false (rEmpty, [])
    (by rfl) rfl

/-- Claim C4: when no handler matches, or the matched handler throws a
`ServerError` with status `s`, the entry for the fetched link is
overwritten with a fresh error record carrying `isError`, `isReady`, not
`isFetching`, `errorStatus = s`, the `is{s}` status flag and the parsed
route parameters; the no-match case uses status 404. -/
theorem c4_error_overwrite (libs : Libs) (subdirectory : String)
    (cache : Cache) (route : String)
    (hnew : cacheGet cache (normalize route) = none) :
    (getMatch libs.rx
        (applyRedirections libs (parse route).route ++ (parse route).queryString)
        libs.handlers = none →
      fetch libs subdirectory cache route none =
        FetchResult.ok
          (cacheSet
            (cacheSet cache (normalize route) (dataInit (parse route) (normalize route)))
            (normalize route)
            (errorData 404 "Not Found" (parse route) (normalize route)))
          [])
    ∧ (∀ (m : PEntry HandlerFunc × Params) (s : Nat) (txt msg : String) (c' : Cache),
        getMatch libs.rx
            (applyRedirections libs (parse route).route ++ (parse route).queryString)
            libs.handlers = some m →
        m.1.func
            { link := normalize route, route := normalize route
              params := m.2, force := false }
            (cacheSet cache (normalize route) (dataInit (parse route) (normalize route)))
          = Except.error (Exn.serverError s txt msg, c') →
        fetch libs subdirectory cache route none =
          FetchResult.ok
            (cacheSet c' (normalize route)
              (errorData s txt (parse route) (normalize route)))
            [{ hname := m.1.name
               args := { link := normalize route, route := normalize route
                         params := m.2, force := false }
               cache := cacheSet cache (normalize route)
                 (dataInit (parse route) (normalize route)) }])
    ∧ (∀ (s : Nat) (txt : String),
        (errorData s txt (parse route) (normalize route)).isError = true
        ∧ (errorData s txt (parse route) (normalize route)).isReady = true
        ∧ (errorData s txt (parse route) (normalize route)).isFetching = false
        ∧ (errorData s txt (parse route) (normalize route)).errorStatus = some s
        ∧ (errorData s txt (parse route) (normalize route)).statusFlags = [s]
        ∧ (errorData s txt (parse route) (normalize route)).route = (parse route).route
        ∧ (errorData s txt (parse route) (normalize route)).link = normalize route
        ∧ (errorData s txt (parse route) (normalize route)).query = (parse route).query
        ∧ (errorData s txt (parse route) (normalize route)).page = (parse route).page
        ∧ (errorData s txt (parse route) (normalize route)).isHome = false
        ∧ (errorData s txt (parse route) (normalize route)).extra = []) := by
  refine ⟨?_, ?_, ?_⟩
  · intro h0
    rw [fetch_absent libs subdirectory cache route hnew]
    simp only [fetchRest]
    exact fetchWithRoute_noMatch libs subdirectory _ (normalize route) (parse route)
      false _ h0
  · intro m s txt msg c' hm hrun
    rw [fetch_absent libs subdirectory cache route hnew]
    simp only [fetchRest]
    exact fetchWithRoute_serverError libs subdirectory _ (normalize route)
      (parse route) false _ m s txt msg c' hm hrun
  · intro s txt
    exact ⟨rfl, rfl, rfl, rfl, rfl, rfl, rfl, rfl, rfl, rfl, rfl⟩

/-- Witness for C4 at a concrete input: a handler throwing a 500
`ServerError` settles the `/old/` entry as a fresh 500 error record. -/
theorem c4_witness :
    fetch libs500 "" [] "/old/" none =
      FetchResult.ok
        (cacheSet (cacheSet [] "/old/" (dataInit (parse "/old/") "/old/")) "/old/"
          (errorData 500 "Internal Server Error" (parse "/old/") "/old/"))
        [{ hname := "old500"
           args := { link := "/old/", route := "/old/", params := [], force := false }
           cache := cacheSet [] "/old/" (dataInit (parse "/old/") "/old/") }] :=
  (c4_error_overwrite libs500 "" [] "/old/" rfl).2.1 (hOld500, []) 500
    "Internal Server Error" "failed"
    (cacheSet [] "/old/" (dataInit (parse "/old/") "/old/")) (by rfl) (by rfl)

/-- Claim C5: when the matched handler throws an exception that is not a
`ServerError`, `fetch` re-throws it to the caller and leaves the cache
exactly as the handler left it — in particular it writes no error record
for the fetched link. -/
theorem c5_rethrow_no_error_entry (libs : Libs) (subdirectory : String)
    (cache : Cache) (route : String) (m : PEntry HandlerFunc × Params)
    (msg : String) (c' : Cache)
    (hnew : cacheGet cache (normalize route) = none)
    (hm : getMatch libs.rx
        (applyRedirections libs (parse route).route ++ (parse route).queryString)
        libs.handlers = some m)
    (hrun : m.1.func
        { link := normalize route, route := normalize route
          params := m.2, force := false }
        (cacheSet cache (normalize route) (dataInit (parse route) (normalize route)))
      = Except.error (Exn.other msg, c')) :
    fetch libs subdirectory cache route none =
      FetchResult.thrown (Exn.other msg) c'
        [{ hname := m.1.name
           args := { link := normalize route, route := normalize route
                     params := m.2, force := false }
           cache := cacheSet cache (normalize route)
             (dataInit (parse route) (normalize route)) }]
    ∧ cacheGet (fetch libs subdirectory cache route none).cacheOf (normalize route)
        = cacheGet c' (normalize route) := by
  have h1 : fetch libs subdirectory cache route none =
      FetchResult.thrown (Exn.other msg) c'
        [{ hname := m.1.name
           args := { link := normalize route, route := normalize route
                     params := m.2, force := false }
           cache := cacheSet cache (normalize route)
             (dataInit (parse route) (normalize route)) }] := by
    rw [fetch_absent libs subdirectory cache route hnew]
    simp only [fetchRest]
    exact fetchWithRoute_rethrow libs subdirectory _ (normalize route)
      (parse route) false _ m msg c' hm hrun
  exact ⟨h1, by rw [h1]; rfl⟩

/-- Witness for C5 at a concrete input: a handler throwing `"boom"` makes
`fetch "/old/"` re-throw `"boom"` with the cache as the handler left it. -/
theorem c5_witness :
    fetch libsBoom "" [] "/old/" none =
      FetchResult.thrown (Exn.other "boom")
        (cacheSet [] "/old/" (dataInit (parse "/old/") "/old/"))
        [{ hname := "oldboom"
           args := { link := "/old/", route := "/old/", params := [], force := false }
           cache := cacheSet [] "/old/" (dataInit (parse "/old/") "/old/") }]
    ∧ cacheGet (fetch libsBoom "" [] "/old/" none).cacheOf "/old/"
        = cacheGet (cacheSet [] "/old/" (dataInit (parse "/old/") "/old/")) "/old/" :=
  c5_rethrow_no_error_entry libsBoom "" [] "/old/" (hOldBoom, []) "boom"
    (cacheSet [] "/old/" (dataInit (parse "/old/") "/old/")) rfl (by rfl) (by rfl)

/-- Claim C6: for every successful fetch (with a handler that does not
itself write an `isHome` key), the settled entry has `isHome = true` iff
the entry's route equals the normalized configured homepage root (the
subdirectory, or `/` when none), the matched pattern does not start with
`RegExp:`, and the entry is not a search result. -/
theorem c6_isHome_characterization (libs : Libs) (subdirectory : String)
    (cache : Cache) (route : String) (m : PEntry HandlerFunc × Params)
    (c' : Cache) (d : DataEntry)
    (hnew : cacheGet cache (normalize route) = none)
    (hm : getMatch libs.rx
        (applyRedirections libs (parse route).route ++ (parse route).queryString)
        libs.handlers = some m)
    (hrun : m.1.func
        { link := normalize route, route := normalize route
          params := m.2, force := false }
        (cacheSet cache (normalize route) (dataInit (parse route) (normalize route)))
      = Except.ok c')
    (hd : cacheGet c' (normalize route) = some d)
    (hHome : d.isHome = false) :
    ∃ e : DataEntry,
      fetch libs subdirectory cache route none =
        FetchResult.ok (cacheSet c' (normalize route) e)
          [{ hname := m.1.name
             args := { link := normalize route, route := normalize route
                       params := m.2, force := false }
             cache := cacheSet cache (normalize route)
               (dataInit (parse route) (normalize route)) }]
      ∧ e.isFetching = false ∧ e.isReady = true
      ∧ (e.isHome = true ↔
          (strStarts m.1.pattern "RegExp:" = false ∧ e.isSearch = false
            ∧ e.route = normalize (if subdirectory = "" then "/" else subdirectory))) := by
  refine ⟨{ d with
      isHome :=
        if !(strStarts m.1.pattern "RegExp:") && !d.isSearch
            && (d.route == normalize (if subdirectory = "" then "/" else subdirectory))
          then true else d.isHome
      isFetching := false
      isReady := true }, ?_, rfl, rfl, ?_⟩
  · rw [fetch_absent libs subdirectory cache route hnew]
    simp only [fetchRest]
    exact fetchWithRoute_success libs subdirectory _ (normalize route) (parse route)
      false _ m c' d hm hrun hd
  · simp only [hHome]
    by_cases hroute : d.route = normalize (if subdirectory = "" then "/" else subdirectory) <;>
      cases hs : strStarts m.1.pattern "RegExp:" <;>
        cases hsearch : d.isSearch <;>
          simp [hs, hsearch, hroute, beq_iff_eq]

/-- Witness for C6 at a concrete input: a successful fetch of `/old/` with
an empty subdirectory, where the entry's route `/old/` differs from the
homepage root `/`, yields `isHome = false` on both sides of the iff. -/
theorem c6_witness :
    ∃ e : DataEntry,
      fetch libsPlain "" [] "/old/" none =
        FetchResult.ok
          (cacheSet (cacheSet [] "/old/" (dataInit (parse "/old/") "/old/")) "/old/" e)
          [{ hname := "old"
             args := { link := "/old/", route := "/old/", params := [], force := false }
             cache := cacheSet [] "/old/" (dataInit (parse "/old/") "/old/") }]
      ∧ e.isFetching = false ∧ e.isReady = true
      ∧ (e.isHome = true ↔
          (strStarts hOld.pattern "RegExp:" = false ∧ e.isSearch = false
            ∧ e.route = normalize "/")) :=
  c6_isHome_characterization libsPlain "" [] "/old/" (hOld, [])
    (cacheSet [] "/old/" (dataInit (parse "/old/") "/old/"))
    (dataInit (parse "/old/") "/old/") rfl (by rfl) (by rfl) (by rfl) rfl

/-- A non-forced `fetch` against an entry that is ready or fetching
invokes no handler. -/
theorem fetch_dedup_calls (libs : Libs) (subdirectory : String)
    (cache : Cache) (route : String) (d : DataEntry)
    (hget : cacheGet cache (normalize route) = some d)
    (hflag : (d.isReady || d.isFetching) = true) :
    (fetch libs subdirectory cache route none).callsOf = [] := by
  simp only [fetch, hget]
  simp [hflag, FetchResult.callsOf]

/-- Claim C9: when the matched handler leaves the lifecycle flags of its
link's entry untouched and throws a non-`ServerError`, the entry stays
fetching and not ready (never settled), and as a consequence a subsequent
non-forced fetch of the same link invokes no handler. -/
theorem c9_unsettled_after_rethrow (libs : Libs) (subdirectory : String)
    (cache : Cache) (route : String) (m : PEntry HandlerFunc × Params)
    (msg : String) (c' : Cache) (d' : DataEntry)
    (hnew : cacheGet cache (normalize route) = none)
    (hm : getMatch libs.rx
        (applyRedirections libs (parse route).route ++ (parse route).queryString)
        libs.handlers = some m)
    (hrun : m.1.func
        { link := normalize route, route := normalize route
          params := m.2, force := false }
        (cacheSet cache (normalize route) (dataInit (parse route) (normalize route)))
      = Except.error (Exn.other msg, c'))
    (hd' : cacheGet c' (normalize route) = some d')
    (hfetching : d'.isFetching = true)
    (_hnready : d'.isReady = false) :
    fetch libs subdirectory cache route none =
      FetchResult.thrown (Exn.other msg) c'
        [{ hname := m.1.name
           args := { link := normalize route, route := normalize route
                     params := m.2, force := false }
           cache := cacheSet cache (normalize route)
             (dataInit (parse route) (normalize route)) }]
    ∧ (fetch libs subdirectory c' route none).callsOf = [] := by
  constructor
  · rw [fetch_absent libs subdirectory cache route hnew]
    simp only [fetchRest]
    exact fetchWithRoute_rethrow libs subdirectory _ (normalize route)
      (parse route) false _ m msg c' hm hrun
  · exact fetch_dedup_calls libs subdirectory c' route d' hd'
      (by simp [hfetching])

/-- Witness for C9 at a concrete input: after the `"boom"` throw, the
`/old/` entry is the still-fetching `dataInit` entry and the follow-up
fetch invokes no handler. -/
theorem c9_witness :
    fetch libsBoom "" [] "/old/" none =
      FetchResult.thrown (Exn.other "boom")
        (cacheSet [] "/old/" (dataInit (parse "/old/") "/old/"))
        [{ hname := "oldboom"
           args := { link := "/old/", route := "/old/", params := [], force := false }
           cache := cacheSet [] "/old/" (dataInit (parse "/old/") "/old/") }]
    ∧ (fetch libsBoom ""
        (cacheSet [] "/old/" (dataInit (parse "/old/") "/old/")) "/old/" none).callsOf
        = [] :=
  c9_unsettled_after_rethrow libsBoom "" [] "/old/" (hOldBoom, []) "boom"
    (cacheSet [] "/old/" (dataInit (parse "/old/") "/old/"))
    (dataInit (parse "/old/") "/old/") rfl (by rfl) (by rfl) (by rfl) rfl rfl

/-- Claim C10: a successful fetch settles the entry by merging into it —
setting `isFetching := false`, `isReady := true` and possibly `isHome` —
rather than replacing it, so every other field the handler wrote into the
entry (the route parameters, the markers and all extra fields) is
preserved unchanged in the ready entry. -/
theorem c10_success_merges (libs : Libs) (subdirectory : String)
    (cache : Cache) (route : String) (m : PEntry HandlerFunc × Params)
    (c' : Cache) (d : DataEntry)
    (hnew : cacheGet cache (normalize route) = none)
    (hm : getMatch libs.rx
        (applyRedirections libs (parse route).route ++ (parse route).queryString)
        libs.handlers = some m)
    (hrun : m.1.func
        { link := normalize route, route := normalize route
          params := m.2, force := false }
        (cacheSet cache (normalize route) (dataInit (parse route) (normalize route)))
      = Except.ok c')
    (hd : cacheGet c' (normalize route) = some d) :
    ∃ e : DataEntry,
      fetch libs subdirectory cache route none =
        FetchResult.ok (cacheSet c' (normalize route) e)
          [{ hname := m.1.name
             args := { link := normalize route, route := normalize route
                       params := m.2, force := false }
             cache := cacheSet cache (normalize route)
               (dataInit (parse route) (normalize route)) }]
      ∧ e.isFetching = false ∧ e.isReady = true
      ∧ (d.isHome = true → e.isHome = true)
      ∧ e.route = d.route ∧ e.link = d.link ∧ e.query = d.query ∧ e.page = d.page
      ∧ e.isError = d.isError ∧ e.isSearch = d.isSearch
      ∧ e.errorStatus = d.errorStatus ∧ e.errorStatusText = d.errorStatusText
      ∧ e.statusFlags = d.statusFlags ∧ e.extra = d.extra := by
  refine ⟨{ d with
      isHome :=
        if !(strStarts m.1.pattern "RegExp:") && !d.isSearch
            && (d.route == normalize (if subdirectory = "" then "/" else subdirectory))
          then true else d.isHome
      isFetching := false
      isReady := true }, ?_, rfl, rfl, ?_, rfl, rfl, rfl, rfl, rfl, rfl, rfl, rfl, rfl, rfl⟩
  · rw [fetch_absent libs subdirectory cache route hnew]
    simp only [fetchRest]
    exact fetchWithRoute_success libs subdirectory _ (normalize route) (parse route)
      false _ m c' d hm hrun hd
  · intro h
    simp [h]

/-- Witness for C10 at a concrete input: the successful fetch of `/old/`
merges the ready flags into the handler-written entry, preserving its
route parameters and extra fields. -/
theorem c10_witness :
    ∃ e : DataEntry,
      fetch libsPlain "" [] "/old/" none =
        FetchResult.ok
          (cacheSet (cacheSet [] "/old/" (dataInit (parse "/old/") "/old/")) "/old/" e)
          [{ hname := "old"
             args := { link := "/old/", route := "/old/", params := [], force := false }
             cache := cacheSet [] "/old/" (dataInit (parse "/old/") "/old/") }]
      ∧ e.isFetching = false ∧ e.isReady = true
      ∧ ((dataInit (parse "/old/") "/old/").isHome = true → e.isHome = true)
      ∧ e.route = (dataInit (parse "/old/") "/old/").route
      ∧ e.link = (dataInit (parse "/old/") "/old/").link
      ∧ e.query = (dataInit (parse "/old/") "/old/").query
      ∧ e.page = (dataInit (parse "/old/") "/old/").page
      ∧ e.isError = (dataInit (parse "/old/") "/old/").isError
      ∧ e.isSearch = (dataInit (parse "/old/") "/old/").isSearch
      ∧ e.errorStatus = (dataInit (parse "/old/") "/old/").errorStatus
      ∧ e.errorStatusText = (dataInit (parse "/old/") "/old/").errorStatusText
      ∧ e.statusFlags = (dataInit (parse "/old/") "/old/").statusFlags
      ∧ e.extra = (dataInit (parse "/old/") "/old/").extra :=
  c10_success_merges libsPlain "" [] "/old/" (hOld, [])
    (cacheSet [] "/old/" (dataInit (parse "/old/") "/old/"))
    (dataInit (parse "/old/") "/old/") rfl (by rfl) (by rfl) (by rfl)

/-- Claim C7: `init` registers, per declared custom post type, a
single-item entry (priority 10, `:slug` pattern) and a `RegExp:`-prefixed
query-permalink entry (priority 9), plus an archive entry (priority 10)
only when the post type declares an archive; in particular the
configuration with the single post type `{type := "movie", endpoint :=
"movies"}` registers exactly the single and query-permalink entries after
the built-ins and no archive entry. -/
theorem c7_init_post_type_entries
    (mkSingle : String → HandlerFunc) (mkQuery : String → String → HandlerFunc)
    (mkArchive : String → String → HandlerFunc)
    (mkTaxonomy : TaxonomyConf → HandlerFunc)
    (builtIn : List (PEntry HandlerFunc)) (pt : PostTypeConf) :
    ((postTypeEntries mkSingle mkQuery mkArchive pt).map entrySig =
      [(pt.type, 10, concatLink [pt.type, "/:slug"]),
       (pt.type ++ " with query permalink", 9,
        "RegExp:(\\?|&)p=\\d+&post_type=" ++ pt.type)]
      ++ (match pt.archive with
          | some a => [(pt.type ++ " archive", 10, concatLink [a])]
          | none => []))
    ∧ ((initHandlers builtIn mkSingle mkQuery mkArchive mkTaxonomy
          [{ type := "movie", endpoint := "movies" }] []).map entrySig =
        builtIn.map entrySig
          ++ [("movie", 10, "/movie/:slug/"),
              ("movie with query permalink", 9,
               "RegExp:(\\?|&)p=\\d+&post_type=movie")]) := by
  constructor
  · cases harch : pt.archive <;> simp [postTypeEntries, entrySig, harch]
  · simp [initHandlers, postTypeEntries, entrySig]
    decide

/-- Counterexample to claim C8 at a concrete input: in pop mode, with
`autoFetch` enabled, the `set` action issues no history operation and
triggers no fetch — even though the claim asserts a fetch is triggered
whenever `autoFetch` is enabled — while still updating the router link
and state. -/
theorem c8_counterexample :
    routerSet (some normalize) "client"
        { link := "/a/", state := [], autoFetch := true } "/b/"
        { method := some HistoryMethod.pop, state := some [("k", "v")] } =
      { router := { link := "/b/", state := [("k", "v")], autoFetch := true }
        historyOps := []
        fetched := [] } := by
  decide

/-- Claim C8 (amended): `set` normalizes the link; it pushes the history
entry when the method is push, or when no method is given on the client
platform; it replaces the history entry when the method is replace; in any
other case — pop mode, or no method outside the client platform — it
touches neither the history nor the fetch, even when `autoFetch` is
enabled; a fetch of the link is triggered exactly when `autoFetch` is
enabled and a history entry was pushed or replaced; and `router.link` and
`router.state` are updated to the new values unconditionally, in every
mode. -/
theorem c8_set_characterization (norm? : Option (String → String))
    (platform : String) (router : RouterSt) (link0 : String)
    (options : SetOptions) :
    ((routerSet norm? platform router link0 options).router.link
        = routerSetLink norm? link0
      ∧ (routerSet norm? platform router link0 options).router.state
        = routerSetSt options
      ∧ (routerSet norm? platform router link0 options).router.autoFetch
        = router.autoFetch)
    ∧ ((options.method = some HistoryMethod.push
          ∨ (options.method = none ∧ platform = "client")) →
        routerSet norm? platform router link0 options =
          { router := { router with
              link := routerSetLink norm? link0, state := routerSetSt options }
            historyOps := [HistoryOp.push (routerSetSt options) (routerSetLink norm? link0)]
            fetched := if router.autoFetch then [routerSetLink norm? link0] else [] })
    ∧ (options.method = some HistoryMethod.replace →
        routerSet norm? platform router link0 options =
          { router := { router with
              link := routerSetLink norm? link0, state := routerSetSt options }
            historyOps := [HistoryOp.replace (routerSetSt options) (routerSetLink norm? link0)]
            fetched := if router.autoFetch then [routerSetLink norm? link0] else [] })
    ∧ ((options.method = some HistoryMethod.pop
          ∨ (options.method = none ∧ platform ≠ "client")) →
        routerSet norm? platform router link0 options =
          { router := { router with
              link := routerSetLink norm? link0, state := routerSetSt options }
            historyOps := []
            fetched := [] }) := by
  refine ⟨⟨?_, ?_, ?_⟩, ?_, ?_, ?_⟩
  · simp only [routerSet]
    split
    · rfl
    · split <;> rfl
  · simp only [routerSet]
    split
    · rfl
    · split <;> rfl
  · simp only [routerSet]
    split
    · rfl
    · split <;> rfl
  · intro h
    simp only [routerSet, if_pos h]
  · intro h
    have hnp : ¬(options.method = some HistoryMethod.push
        ∨ (options.method = none ∧ platform = "client")) := by
      simp [h]
    simp only [routerSet, if_neg hnp, if_pos h]
  · intro h
    have hnp : ¬(options.method = some HistoryMethod.push
        ∨ (options.method = none ∧ platform = "client")) := by
      rcases h with h | h
      · simp [h]
      · simp [h.1, h.2]
    have hnr : ¬(options.method = some HistoryMethod.replace) := by
      rcases h with h | h
      · simp [h]
      · simp [h.1]
    simp only [routerSet, if_neg hnp, if_neg hnr]

/-- Witness for the amended C8 at a concrete input: the pop-mode branch. -/
theorem c8_witness :
    routerSet (some normalize) "client"
        { link := "/a/", state := [], autoFetch := true } "/b/"
        { method := some HistoryMethod.pop, state := none } =
      { router := { link := routerSetLink (some normalize) "/b/"
                    state := routerSetSt
                      { method := some HistoryMethod.pop, state := none }
                    autoFetch := true }
        historyOps := []
        fetched := [] } :=
  (c8_set_characterization (some normalize) "client"
      { link := "/a/", state := [], autoFetch := true } "/b/"
      { method := some HistoryMethod.pop, state := none }).2.2.2
    (Or.inl rfl)

end Frontity
